import Mathlib

/-!
Shallow embedding of `src/app/mangadex.py` (klinge/mangadex_anilist_sync):
the `MangaDexClient` token lifecycle (`_ensure_valid_token`, `_save_tokens`,
`_authorize`, `_refresh_token`, `__init__`) and the progress aggregation
(`get_reading_progress` over `get_followed_manga` / `get_read_chapters`).

Modelling choices, all taken from the source:
* Time (`time.time()`, `expires_in`, `token_expiry`) is modelled as `Int`;
  the Python `float` values and their `str`/`float` round-trip through the
  settings store are modelled as the identity on `Int`.
* Python truthiness of `self.access_token` (an `Option String`: `None` and
  `""` are falsy) and of `self.token_expiry` (`None` and `0.0` are falsy)
  is modelled exactly.
* The network is an oracle (`Env`): the outcome of the authorization POST
  and of the refresh POST is either a parsed token JSON (2xx), an
  `HTTPError` raised by `raise_for_status` (non-2xx), or any other
  exception (transport failure, malformed JSON body), which Python does not
  catch in these functions since the `except` clauses match only
  `requests.exceptions.HTTPError`.
* A Python dict is an insertion-ordered association list: assignment
  overwrites in place when the key exists and appends otherwise.
-/

namespace MdSync

/-- Parsed token-endpoint JSON body `{access_token, refresh_token, expires_in}`
(spec section 6: OAuth token endpoint response). -/
structure TokenData where
  access_token : String
  refresh_token : String
  expires_in : Int
  deriving DecidableEq, Repr

/-- Outcome of one POST to the token endpoint, as the Python code can observe
it: a 2xx response with parsed JSON, a non-2xx response (on which
`raise_for_status` raises `requests.exceptions.HTTPError`), or any other
exception (connection failure from `requests.post`, or a decode error from
`response.json()`), which is not an `HTTPError`. -/
inductive TokenCallResult where
  | success (td : TokenData)
  | httpErr
  | otherExn
  deriving DecidableEq, Repr

/-- A Python exception as classified by the `except` clauses in the source:
`requests.exceptions.HTTPError` versus everything else. -/
inductive PyExn where
  | httpError
  | otherError
  deriving DecidableEq, Repr

/-- A network call made by the token layer (`requests.post` to the OAuth
endpoint with `grant_type=refresh_token` or `grant_type=password`). -/
inductive NetEvent where
  | refreshCall
  | authCall
  deriving DecidableEq, Repr

/-- The mutable token fields of `MangaDexClient`: `self.access_token`,
`self.refresh_token` (absent or a string; `os.getenv` can also give `""`),
and `self.token_expiry` (absent or a timestamp). -/
structure TokenState where
  access_token : Option String
  refresh_token : Option String
  token_expiry : Option Int
  deriving DecidableEq, Repr

/-- The durable settings store (the `.env` file written through
`dotenv.set_key` and read back through `os.getenv` after `load_dotenv`),
restricted to the three token keys `MD_ACCESS_TOKEN`, `MD_REFRESH_TOKEN`,
`MD_TOKEN_EXPIRY`. -/
structure Store where
  md_access_token : Option String
  md_refresh_token : Option String
  md_token_expiry : Option Int
  deriving DecidableEq, Repr

/-- The environment of one token operation: the clock reading taken in
`_ensure_valid_token` (line 57), the clock reading taken in `_save_tokens`
(line 76), the outcome of the refresh POST and of the authorization POST,
and whether the durable settings-store write fails. -/
structure Env where
  now : Int
  saveNow : Int
  refreshResult : TokenCallResult
  authResult : TokenCallResult
  storeWriteFails : Bool
  deriving DecidableEq, Repr

/-- Python truthiness of an optional string: `None` and `""` are falsy. -/
def truthyStr : Option String → Bool
  | none => false
  | some s => s ≠ ""

/-- Python truthiness of the optional `token_expiry` number: `None` and
`0.0` are falsy. -/
def truthyExpiry : Option Int → Bool
  | none => false
  | some t => t ≠ 0

/-- The staleness test of `_ensure_valid_token` line 60:
`not self.access_token or not self.token_expiry or
current_time > (self.token_expiry - 60)`. The third disjunct is only
evaluated when `token_expiry` is truthy, matching Python short-circuiting. -/
def tokenStale (now : Int) (s : TokenState) : Bool :=
  !truthyStr s.access_token || !truthyExpiry s.token_expiry ||
    (match s.token_expiry with
     | some t => decide (now > t - 60)
     | none => true)

/-- Result of one token operation: the exception it raised (`none` means it
returned normally), the client's token fields afterwards, the durable store
afterwards, and the network calls it made, in order. -/
structure Outcome where
  exn : Option PyExn
  state : TokenState
  store : Store
  events : List NetEvent
  deriving DecidableEq, Repr

/-- Embedding of `_save_tokens` (lines 71-91): sets the in-memory fields
`self.access_token`, `self.refresh_token`,
`self.token_expiry = time.time() + expires_in`, then writes the three keys
to the durable store.

Modelled from the spec: the durable write is done by the external
collaborator `dotenv.set_key`, whose code is not part of this repository;
spec sections 4.1 and 7 describe the settings-store write as best-effort
("PersistenceFailure — settings-store write failure; currently
unhandled/best-effort, not raised"), so a failing write leaves the store
unchanged and raises nothing, and the source ignores its result. -/
def saveTokens (env : Env) (store : Store) (td : TokenData) : TokenState × Store :=
  let s : TokenState :=
    { access_token := some td.access_token
      refresh_token := some td.refresh_token
      token_expiry := some (env.saveNow + td.expires_in) }
  let store' : Store :=
    if env.storeWriteFails then store
    else
      { md_access_token := some td.access_token
        md_refresh_token := some td.refresh_token
        md_token_expiry := some (env.saveNow + td.expires_in) }
  (s, store')

/-- Embedding of `_authorize` (lines 93-116): POST the password grant; on
2xx, parse and `_save_tokens`; on non-2xx, `raise_for_status` raises
`HTTPError`, which the `except` clause logs and re-raises; any other
exception propagates unchanged. -/
def authorize (env : Env) (s : TokenState) (store : Store) : Outcome :=
  match env.authResult with
  | .success td =>
      let (s', store') := saveTokens env store td
      { exn := none, state := s', store := store', events := [.authCall] }
  | .httpErr => { exn := some .httpError, state := s, store := store, events := [.authCall] }
  | .otherExn => { exn := some .otherError, state := s, store := store, events := [.authCall] }

/-- Embedding of `_refresh_token` (lines 118-141): POST the refresh grant;
on 2xx, parse and `_save_tokens`; on `HTTPError` (non-2xx), the `except`
clause falls back to one `_authorize()` call; any other exception is not an
`HTTPError` and propagates without fallback. -/
def refreshToken (env : Env) (s : TokenState) (store : Store) : Outcome :=
  match env.refreshResult with
  | .success td =>
      let (s', store') := saveTokens env store td
      { exn := none, state := s', store := store', events := [.refreshCall] }
  | .httpErr =>
      let o := authorize env s store
      { o with events := .refreshCall :: o.events }
  | .otherExn => { exn := some .otherError, state := s, store := store, events := [.refreshCall] }

/-- Embedding of `_ensure_valid_token` (lines 55-69): if the token is
missing or expired (60-second buffer, strict comparison), refresh when
`self.refresh_token` is truthy and otherwise fully authorize; else do
nothing. -/
def ensureValidToken (env : Env) (s : TokenState) (store : Store) : Outcome :=
  if tokenStale env.now s then
    if truthyStr s.refresh_token then refreshToken env s store
    else authorize env s store
  else { exn := none, state := s, store := store, events := [] }

/-- The `TokenState` reconstructed from the persisted store keys, as
`__init__` lines 32-38 does (`os.getenv` of the three keys, then
`float(...)` on the expiry string, modelled as the identity on `Int`). -/
def stateOfStore (store : Store) : TokenState :=
  { access_token := store.md_access_token
    refresh_token := store.md_refresh_token
    token_expiry := store.md_token_expiry }

/-- Embedding of `__init__` (lines 18-42) restricted to the token fields:
load the persisted tokens and call `_ensure_valid_token`. -/
def clientInit (env : Env) (store : Store) : Outcome :=
  ensureValidToken env (stateOfStore store) store

/-- The construction-time classification of spec section 4.1: `Valid` iff
the staleness test of line 60 is false, i.e. the access token is truthy,
the expiry is truthy, and `now ≤ expires_at − 60`. -/
def stateValid (now : Int) (s : TokenState) : Bool :=
  !tokenStale now s

/-- The TokenState invariant of spec section 3: if `access_token` is
present (truthy), `token_expiry` is also present. -/
def tokenInv (s : TokenState) : Prop :=
  truthyStr s.access_token = true → s.token_expiry.isSome = true

end MdSync

namespace MdSync

/-! Progress aggregation (`get_followed_manga`, `get_read_chapters`,
`get_reading_progress`, lines 143-197). -/

/-- One element of the followed-manga response `data` array:
`manga["id"]` and the optional `manga["attributes"]["title"]["en"]`. -/
structure FollowedManga where
  id : String
  titleEn : Option String
  deriving DecidableEq, Repr

/-- The title displayed for a followed manga:
`manga["attributes"]["title"].get("en", "Unknown Title")` (line 184). -/
def displayTitle (m : FollowedManga) : String :=
  m.titleEn.getD "Unknown Title"

/-- Python string comparison `a < b` on lists of characters: lexicographic
by Unicode code point. -/
def charListLt : List Char → List Char → Bool
  | [], [] => false
  | [], _ :: _ => true
  | _ :: _, [] => false
  | a :: as, b :: bs =>
      if a.toNat < b.toNat then true
      else if b.toNat < a.toNat then false
      else charListLt as bs

/-- Python string comparison `a < b`: lexicographic by Unicode code point. -/
def strLt (a b : String) : Bool :=
  charListLt a.data b.data

/-- Python `max(chapters, default="0")` over strings (line 189): the default
only when the list is empty, else a left fold keeping the current maximum
under Python's generic (lexicographic, code-point) string order. -/
def pyMax (xs : List String) (dflt : String) : String :=
  match xs with
  | [] => dflt
  | x :: rest => rest.foldl (fun acc c => if strLt acc c then c else acc) x

/-- Python dict keys, in insertion order. -/
def keys (d : List (String × String)) : List String :=
  d.map Prod.fst

/-- Python dict assignment `d[k] = v`: overwrite the entry in place when
`k` is already a key (a dict holds each key once, so replacing the first
occurrence is the overwrite), append otherwise. -/
def dictInsert : List (String × String) → String → String → List (String × String)
  | [], k, v => [(k, v)]
  | p :: rest, k, v => if p.1 = k then (k, v) :: rest else p :: dictInsert rest k v

/-- Python dict lookup `d[k]` as an `Option`. -/
def dictLookup (d : List (String × String)) (k : String) : Option String :=
  match d with
  | [] => none
  | (k', v) :: rest => if k' = k then some v else dictLookup rest k

/-- The body of the loop in `get_reading_progress` (lines 182-194) for one
manga: fetch its read chapters; on success store
`max(chapters, default="0")` under its display title, and on any exception
store the sentinel `"Error"` instead. `fetch` stands for
`self.get_read_chapters` together with everything that can raise inside the
`try` block. -/
def progressStep (fetch : String → Except PyExn (List String))
    (progress : List (String × String)) (m : FollowedManga) : List (String × String) :=
  match fetch m.id with
  | .ok chapters => dictInsert progress (displayTitle m) (pyMax chapters "0")
  | .error _ => dictInsert progress (displayTitle m) "Error"

/-- Embedding of `get_reading_progress` (lines 176-197), given the followed
list returned by `get_followed_manga()` and the chapter-fetch oracle: a
sequential left fold of `progressStep` starting from the empty dict. -/
def getReadingProgress (followed : List FollowedManga)
    (fetch : String → Except PyExn (List String)) : List (String × String) :=
  followed.foldl (progressStep fetch) []

/-- The value `get_reading_progress` stores for one manga: the latest
chapter on success, the sentinel `"Error"` on any exception. -/
def progressValue (fetch : String → Except PyExn (List String))
    (m : FollowedManga) : String :=
  match fetch m.id with
  | .ok chapters => pyMax chapters "0"
  | .error _ => "Error"

end MdSync

namespace MdSync

/-! Theorems about the token lifecycle. -/

/-- C5: for every TokenState where `access_token` is present (truthy),
`expires_at` is present, and `now < expires_at − 60`, `_ensure_valid_token`
performs no network call, raises nothing, and leaves the token fields and
the store unchanged. The hypothesis `0 ≤ now` reflects that `time.time()`
is a nonnegative wall-clock reading. -/
theorem ensureValid_noop_when_valid (env : Env) (s : TokenState) (store : Store)
    (hnow : 0 ≤ env.now) (hacc : truthyStr s.access_token = true)
    (t : Int) (hexp : s.token_expiry = some t) (hfresh : env.now < t - 60) :
    ensureValidToken env s store =
      { exn := none, state := s, store := store, events := [] } := by
  have ht0 : t ≠ 0 := by omega
  have hstale : tokenStale env.now s = false := by
    simp only [tokenStale, hexp, hacc, truthyExpiry, Bool.not_true, Bool.false_or,
      Bool.or_eq_false_iff, Bool.not_eq_false', decide_eq_true_eq,
      decide_eq_false_iff_not]
    exact ⟨ht0, by omega⟩
  simp [ensureValidToken, hstale]

/-- C5 witness: a concrete fresh token is served unchanged with no network
call. -/
theorem ensureValid_noop_when_valid_witness :
    ensureValidToken ⟨0, 0, .httpErr, .httpErr, false⟩
      ⟨some "tok", some "ref", some 1000⟩ ⟨none, none, none⟩ =
      { exn := none, state := ⟨some "tok", some "ref", some 1000⟩,
        store := ⟨none, none, none⟩, events := [] } :=
  ensureValid_noop_when_valid _ _ _ (by decide) (by decide) 1000 rfl (by decide)

/-- C4 counterexample: at exactly 60 seconds before nominal expiry
(`expires_at − now = 60`, here `expires_at = 100`, `now = 40`) with a
refresh token present, `_ensure_valid_token` makes no network call at all —
the code's test is the strict `now > expires_at − 60`, so the boundary case
the claim includes does not trigger a refresh and the token is served. -/
theorem ensureValid_boundary_no_refresh :
    (100 - (40 : Int) ≤ 60) ∧
    truthyStr (TokenState.mk (some "tok") (some "ref") (some 100)).refresh_token = true ∧
    (ensureValidToken ⟨40, 40, .success ⟨"a", "r", 900⟩, .success ⟨"a", "r", 900⟩, false⟩
      ⟨some "tok", some "ref", some 100⟩ ⟨none, none, none⟩).events = [] := by
  decide

/-- C4 amended: for every TokenState where the access token is absent or
empty, or the expiry is absent or zero, or `expires_at − now < 60`
(strictly within the buffer), and the refresh token is present,
`_ensure_valid_token`'s first network call is the refresh call. -/
theorem ensureValid_refreshes_when_stale (env : Env) (s : TokenState) (store : Store)
    (href : truthyStr s.refresh_token = true)
    (hstale : truthyStr s.access_token = false ∨ truthyExpiry s.token_expiry = false ∨
      ∃ t, s.token_expiry = some t ∧ t - env.now < 60) :
    (ensureValidToken env s store).events.head? = some .refreshCall := by
  have h : tokenStale env.now s = true := by
    rcases hstale with h | h | ⟨t, ht, hlt⟩
    · simp [tokenStale, h]
    · simp [tokenStale, h]
    · have : decide (env.now > t - 60) = true := by
        simp only [decide_eq_true_eq]
        omega
      simp [tokenStale, ht, this]
  rw [ensureValidToken]
  simp only [h, href, if_true]
  rw [refreshToken]
  cases env.refreshResult <;> simp

/-- C4 amended witness: a token one second inside the buffer
(`expires_at − now = 59`) triggers a refresh call first. -/
theorem ensureValid_refreshes_when_stale_witness :
    (ensureValidToken ⟨41, 41, .success ⟨"a", "r", 900⟩, .success ⟨"a", "r", 900⟩, false⟩
      ⟨some "tok", some "ref", some 100⟩ ⟨none, none, none⟩).events.head? =
      some .refreshCall :=
  ensureValid_refreshes_when_stale _ _ _ (by decide)
    (Or.inr (Or.inr ⟨100, rfl, by decide⟩))

/-- C6: when the token is stale, a refresh token is present, and the
refresh POST returns non-2xx, `_ensure_valid_token` makes exactly the
refresh call followed by exactly one full-authorization call, and the
invocation raises iff that fallback authorization does not succeed
(`HTTPError` for a non-2xx fallback response, the other exception
otherwise); a refresh failure alone is never fatal. -/
theorem refresh_httpError_falls_back_once (env : Env) (s : TokenState) (store : Store)
    (hstale : tokenStale env.now s = true) (href : truthyStr s.refresh_token = true)
    (hres : env.refreshResult = .httpErr) :
    (ensureValidToken env s store).events = [.refreshCall, .authCall] ∧
    (ensureValidToken env s store).exn =
      (match env.authResult with
       | .success _ => none
       | .httpErr => some .httpError
       | .otherExn => some .otherError) := by
  rw [ensureValidToken]
  simp only [hstale, href, if_true]
  rw [refreshToken]
  simp only [hres]
  cases h : env.authResult <;> simp [authorize, h]

/-- C6 witness: with a stale token, refresh rejected, and fallback
authorization succeeding, the call trace is refresh then one authorization
and no exception is raised. -/
theorem refresh_httpError_falls_back_once_witness :
    (ensureValidToken ⟨500, 500, .httpErr, .success ⟨"a", "r", 900⟩, false⟩
      ⟨some "tok", some "ref", some 100⟩ ⟨none, none, none⟩).events =
      [.refreshCall, .authCall] ∧
    (ensureValidToken ⟨500, 500, .httpErr, .success ⟨"a", "r", 900⟩, false⟩
      ⟨some "tok", some "ref", some 100⟩ ⟨none, none, none⟩).exn = none := by
  have h := refresh_httpError_falls_back_once
    ⟨500, 500, .httpErr, .success ⟨"a", "r", 900⟩, false⟩
    ⟨some "tok", some "ref", some 100⟩ ⟨none, none, none⟩ (by decide) (by decide) rfl
  exact ⟨h.1, h.2⟩

/-- C10: when the token is stale, a refresh token is present, and the
refresh attempt raises anything other than an `HTTPError` (a transport
failure from `requests.post`, or a decode error from `response.json()`),
the exception propagates out of `_refresh_token` and no fallback
full-authorization call is made: the only network call is the refresh
call. -/
theorem refresh_other_exception_propagates (env : Env) (s : TokenState) (store : Store)
    (hstale : tokenStale env.now s = true) (href : truthyStr s.refresh_token = true)
    (hres : env.refreshResult = .otherExn) :
    (ensureValidToken env s store).events = [.refreshCall] ∧
    (ensureValidToken env s store).exn = some .otherError := by
  rw [ensureValidToken]
  simp only [hstale, href, if_true]
  rw [refreshToken]
  simp [hres]

/-- C10 witness: a concrete transport failure during refresh propagates
with no authorization attempt. -/
theorem refresh_other_exception_propagates_witness :
    (ensureValidToken ⟨500, 500, .otherExn, .success ⟨"a", "r", 900⟩, false⟩
      ⟨some "tok", some "ref", some 100⟩ ⟨none, none, none⟩).events = [.refreshCall] ∧
    (ensureValidToken ⟨500, 500, .otherExn, .success ⟨"a", "r", 900⟩, false⟩
      ⟨some "tok", some "ref", some 100⟩ ⟨none, none, none⟩).exn = some .otherError :=
  refresh_other_exception_propagates _ _ _ (by decide) (by decide) rfl

/-- C3: for every token acquisition — full authorization or refresh — whose
network call succeeds, a failing durable settings-store write (the
best-effort `set_key` of `_save_tokens`, modelled from the spec) neither
raises nor fails the operation: no exception is reported and the in-memory
token fields are still updated to the new tokens with
`expiry = time + expires_in`. -/
theorem save_failure_does_not_fail_operation (env : Env) (s : TokenState)
    (store : Store) (td : TokenData) (_hw : env.storeWriteFails = true) :
    (env.authResult = .success td →
      (authorize env s store).exn = none ∧
      (authorize env s store).state =
        ⟨some td.access_token, some td.refresh_token, some (env.saveNow + td.expires_in)⟩) ∧
    (env.refreshResult = .success td →
      (refreshToken env s store).exn = none ∧
      (refreshToken env s store).state =
        ⟨some td.access_token, some td.refresh_token, some (env.saveNow + td.expires_in)⟩) := by
  constructor
  · intro h
    simp [authorize, h, saveTokens]
  · intro h
    simp [refreshToken, h, saveTokens]

/-- C3 witness: a concrete successful authorization and refresh with the
durable write failing still complete with updated in-memory tokens. -/
theorem save_failure_does_not_fail_operation_witness :
    (authorize ⟨0, 5, .success ⟨"at", "rt", 900⟩, .success ⟨"at", "rt", 900⟩, true⟩
      ⟨none, none, none⟩ ⟨none, none, none⟩).exn = none ∧
    (authorize ⟨0, 5, .success ⟨"at", "rt", 900⟩, .success ⟨"at", "rt", 900⟩, true⟩
      ⟨none, none, none⟩ ⟨none, none, none⟩).state =
      ⟨some "at", some "rt", some 905⟩ ∧
    (refreshToken ⟨0, 5, .success ⟨"at", "rt", 900⟩, .success ⟨"at", "rt", 900⟩, true⟩
      ⟨none, none, none⟩ ⟨none, none, none⟩).state =
      ⟨some "at", some "rt", some 905⟩ := by
  have h := save_failure_does_not_fail_operation
    ⟨0, 5, .success ⟨"at", "rt", 900⟩, .success ⟨"at", "rt", 900⟩, true⟩
    ⟨none, none, none⟩ ⟨none, none, none⟩ ⟨"at", "rt", 900⟩ rfl
  exact ⟨(h.1 rfl).1, (h.1 rfl).2, (h.2 rfl).2⟩

/-- C7 counterexample: after a successful authorization at time 0 with
`expires_in = 900`, the persisted store holds expiry 900; reloading at time
900 — which is "no later than the stored expiry" — reconstructs a
TokenState the construction-time check classifies as stale, not Valid,
because the check requires `now ≤ expires_at − 60`. -/
theorem round_trip_at_expiry_not_valid :
    (authorize ⟨0, 0, .httpErr, .success ⟨"at", "rt", 900⟩, false⟩
      ⟨none, none, none⟩ ⟨none, none, none⟩).exn = none ∧
    (authorize ⟨0, 0, .httpErr, .success ⟨"at", "rt", 900⟩, false⟩
      ⟨none, none, none⟩ ⟨none, none, none⟩).store.md_token_expiry = some 900 ∧
    stateValid 900 (stateOfStore
      (authorize ⟨0, 0, .httpErr, .success ⟨"at", "rt", 900⟩, false⟩
        ⟨none, none, none⟩ ⟨none, none, none⟩).store) = false := by
  decide

/-- C7 amended: for every successful authorization (nonempty access token)
whose durable write succeeds, reloading the persisted token fields at any
nonnegative time at least 60 seconds before the stored expiry
(`t ≤ saveNow + expires_in − 60`) reconstructs a TokenState classified
Valid by the construction-time check. -/
theorem round_trip_before_buffer_valid (env : Env) (s : TokenState) (store : Store)
    (td : TokenData) (hres : env.authResult = .success td)
    (hw : env.storeWriteFails = false) (hacc : td.access_token ≠ "")
    (t : Int) (hnow : 0 ≤ t) (ht : t ≤ env.saveNow + td.expires_in - 60) :
    stateValid t (stateOfStore (authorize env s store).store) = true := by
  have hne : env.saveNow + td.expires_in ≠ 0 := by omega
  have hle : ¬ t > env.saveNow + td.expires_in - 60 := by omega
  simp [authorize, hres, saveTokens, hw, stateOfStore, stateValid, tokenStale,
    truthyStr, truthyExpiry, hacc, hne, hle]

/-- C7 amended witness: authorization at time 0 with a 900-second TTL,
reloaded at time 840 (exactly 60 seconds before expiry), is Valid. -/
theorem round_trip_before_buffer_valid_witness :
    stateValid 840 (stateOfStore
      (authorize ⟨0, 0, .httpErr, .success ⟨"at", "rt", 900⟩, false⟩
        ⟨none, none, none⟩ ⟨none, none, none⟩).store) = true :=
  round_trip_before_buffer_valid _ _ _ ⟨"at", "rt", 900⟩ rfl rfl (by decide)
    840 (by decide) (by decide)

/-- C8: the TokenState invariant — a truthy access token implies a present
expiry — is established by every operation that can end with a token: any
`_ensure_valid_token` call (hence every data call, which performs it first
and does not touch the token fields) and any client construction that
returns without an exception leave a state satisfying the invariant, and
every `_save_tokens` call establishes it with
`token_expiry = time + expires_in`, the acquisition time plus the
server-reported TTL. -/
theorem token_invariant_maintained :
    (∀ (env : Env) (s : TokenState) (store : Store),
      (ensureValidToken env s store).exn = none →
      tokenInv (ensureValidToken env s store).state) ∧
    (∀ (env : Env) (store : Store),
      (clientInit env store).exn = none → tokenInv (clientInit env store).state) ∧
    (∀ (env : Env) (store : Store) (td : TokenData),
      tokenInv (saveTokens env store td).1 ∧
      (saveTokens env store td).1.token_expiry = some (env.saveNow + td.expires_in)) := by
  have hsave : ∀ (env : Env) (store : Store) (td : TokenData),
      tokenInv (saveTokens env store td).1 ∧
      (saveTokens env store td).1.token_expiry = some (env.saveNow + td.expires_in) := by
    intro env store td
    simp [saveTokens, tokenInv]
  have hauth : ∀ (env : Env) (s : TokenState) (store : Store),
      (authorize env s store).exn = none → tokenInv (authorize env s store).state := by
    intro env s store h
    cases hres : env.authResult with
    | success td => simpa [authorize, hres] using (hsave env store td).1
    | httpErr => simp [authorize, hres] at h
    | otherExn => simp [authorize, hres] at h
  have hens : ∀ (env : Env) (s : TokenState) (store : Store),
      (ensureValidToken env s store).exn = none →
      tokenInv (ensureValidToken env s store).state := by
    intro env s store h
    rw [ensureValidToken] at h ⊢
    by_cases hstale : tokenStale env.now s = true
    · simp only [hstale, if_true] at h ⊢
      by_cases href : truthyStr s.refresh_token = true
      · simp only [href, if_true] at h ⊢
        rw [refreshToken] at h ⊢
        cases hres : env.refreshResult with
        | success td => simpa [hres] using (hsave env store td).1
        | httpErr =>
            simp only [hres] at h ⊢
            exact hauth env s store h
        | otherExn => simp [hres] at h
      · simp only [href] at h ⊢
        simp only [Bool.not_eq_true] at href
        simp only [href, Bool.false_eq_true, if_false] at h ⊢
        exact hauth env s store h
    · simp only [Bool.not_eq_true] at hstale
      simp only [hstale, Bool.false_eq_true, if_false] at h ⊢
      intro hacc
      have : truthyExpiry s.token_expiry = true := by
        rcases Bool.or_eq_false_iff.mp hstale with ⟨h1, h2⟩
        rcases Bool.or_eq_false_iff.mp h1 with ⟨h3, h4⟩
        simpa using h4
      cases hexp : s.token_expiry with
      | none => rw [hexp] at this; simp [truthyExpiry] at this
      | some t => simp
  exact ⟨hens, fun env store => hens env (stateOfStore store) store, hsave⟩

/-- C8 witness: a concrete successful construction from a fresh persisted
token and a concrete `_save_tokens` both satisfy the invariant. -/
theorem token_invariant_maintained_witness :
    tokenInv (clientInit ⟨0, 0, .httpErr, .httpErr, false⟩
      ⟨some "tok", some "ref", some 1000⟩).state ∧
    (saveTokens ⟨0, 5, .httpErr, .httpErr, false⟩ ⟨none, none, none⟩
      ⟨"at", "rt", 900⟩).1.token_expiry = some 905 := by
  have h := token_invariant_maintained
  exact ⟨h.2.1 ⟨0, 0, .httpErr, .httpErr, false⟩ ⟨some "tok", some "ref", some 1000⟩
    (by decide),
    (h.2.2 ⟨0, 5, .httpErr, .httpErr, false⟩ ⟨none, none, none⟩ ⟨"at", "rt", 900⟩).2⟩

/-! Dictionary lemmas for the progress aggregation. -/

theorem keys_append (d e : List (String × String)) :
    keys (d ++ e) = keys d ++ keys e := by
  simp [keys]

theorem dictInsert_of_not_mem (d : List (String × String)) (k v : String)
    (h : k ∉ keys d) : dictInsert d k v = d ++ [(k, v)] := by
  induction d with
  | nil => rfl
  | cons p rest ih =>
    have hp : p.1 ≠ k := by
      intro hc
      exact h (by simp [keys, hc])
    have hr : k ∉ keys rest := fun hc => h (by simp [keys] at hc ⊢; tauto)
    simp [dictInsert, hp, ih hr]

theorem dictLookup_insert_self (d : List (String × String)) (k v : String) :
    dictLookup (dictInsert d k v) k = some v := by
  induction d with
  | nil => simp [dictInsert, dictLookup]
  | cons p rest ih =>
    by_cases hp : p.1 = k
    · simp [dictInsert, hp, dictLookup]
    · cases p with
      | mk k' v' => simpa [dictInsert, hp, dictLookup] using ih

theorem dictLookup_insert_ne (d : List (String × String)) (k v q : String)
    (h : k ≠ q) : dictLookup (dictInsert d k v) q = dictLookup d q := by
  induction d with
  | nil => simp [dictInsert, dictLookup, h]
  | cons p rest ih =>
    cases p with
    | mk k' v' =>
      by_cases hp : k' = k
      · subst hp
        simp [dictInsert, dictLookup, h]
      · simp only [dictInsert, hp, if_false]
        by_cases hq : k' = q <;> simp [dictLookup, hq, ih]

/-! Structural lemmas about `get_reading_progress`. -/

/-- When the display titles are pairwise distinct and none occurs in the
accumulator, the aggregation loop appends exactly one entry per followed
item, in order. -/
theorem foldl_progressStep_of_nodup (fetch : String → Except PyExn (List String)) :
    ∀ (l : List FollowedManga) (d : List (String × String)),
      (l.map displayTitle).Nodup →
      (∀ m ∈ l, displayTitle m ∉ keys d) →
      l.foldl (progressStep fetch) d =
        d ++ l.map (fun m => (displayTitle m, progressValue fetch m)) := by
  intro l
  induction l with
  | nil =>
    intro d _ _
    simp
  | cons m rest ih =>
    intro d hnodup hd
    have hm : displayTitle m ∉ keys d := hd m (List.mem_cons_self m rest)
    obtain ⟨hhead, htail⟩ :
        (∀ x ∈ rest, ¬ displayTitle x = displayTitle m) ∧
          (rest.map displayTitle).Nodup := by
      simpa using hnodup
    have hstep : progressStep fetch d m = d ++ [(displayTitle m, progressValue fetch m)] := by
      rw [progressStep, progressValue]
      cases hfm : fetch m.id <;> simp [dictInsert_of_not_mem d _ _ hm]
    have hlater : ∀ m' ∈ rest,
        displayTitle m' ∉ keys (d ++ [(displayTitle m, progressValue fetch m)]) := by
      intro m' hm'
      rw [keys_append]
      simp only [List.mem_append]
      rintro (hc | hc)
      · exact hd m' (List.mem_cons_of_mem _ hm') hc
      · have hceq : displayTitle m' = displayTitle m := by simpa [keys] using hc
        exact hhead m' hm' hceq
    rw [List.foldl_cons, hstep, ih _ htail hlater]
    simp

/-- With pairwise-distinct display titles, `get_reading_progress` is the
followed list mapped to (title, value) pairs, in order. -/
theorem getReadingProgress_eq_map (followed : List FollowedManga)
    (fetch : String → Except PyExn (List String))
    (h : (followed.map displayTitle).Nodup) :
    getReadingProgress followed fetch =
      followed.map (fun m => (displayTitle m, progressValue fetch m)) := by
  simpa [getReadingProgress] using
    foldl_progressStep_of_nodup fetch followed [] h (by simp [keys])

/-- Looking up the i-th item's title in the mapped progress list gives the
i-th item's value, when titles are pairwise distinct. -/
theorem dictLookup_map_progress (fetch : String → Except PyExn (List String)) :
    ∀ (l : List FollowedManga), (l.map displayTitle).Nodup →
      ∀ (i : Nat) (hi : i < l.length),
        dictLookup (l.map (fun m => (displayTitle m, progressValue fetch m)))
          (displayTitle (l.get ⟨i, hi⟩)) =
          some (progressValue fetch (l.get ⟨i, hi⟩)) := by
  intro l
  induction l with
  | nil =>
    intro _ i hi
    simp at hi
  | cons m rest ih =>
    intro hnd i hi
    obtain ⟨hhead, htail⟩ :
        (∀ x ∈ rest, ¬ displayTitle x = displayTitle m) ∧
          (rest.map displayTitle).Nodup := by
      simpa using hnd
    cases i with
    | zero => simp [dictLookup]
    | succ j =>
      have hj : j < rest.length := by simpa using hi
      have hget : (m :: rest).get ⟨j + 1, hi⟩ = rest.get ⟨j, hj⟩ := rfl
      have hne : displayTitle m ≠ displayTitle rest[j] := by
        intro hc
        exact hhead (rest.get ⟨j, hj⟩) (rest.get_mem j hj) hc.symm
      rw [hget]
      simpa [dictLookup, hne] using ih htail j hj

/-- Lookups in the folded progress are unchanged by later items whose
display titles differ. -/
theorem dictLookup_foldl_progress_of_ne (fetch : String → Except PyExn (List String))
    (t : String) :
    ∀ (post : List FollowedManga) (d : List (String × String)),
      (∀ m ∈ post, displayTitle m ≠ t) →
      dictLookup (post.foldl (progressStep fetch) d) t = dictLookup d t := by
  intro post
  induction post with
  | nil =>
    intro d _
    rfl
  | cons m rest ih =>
    intro d h
    rw [List.foldl_cons, ih _ (fun m' hm' => h m' (List.mem_cons_of_mem _ hm'))]
    have hm : displayTitle m ≠ t := h m (List.mem_cons_self m rest)
    rw [progressStep]
    cases hfm : fetch m.id <;> simp only [hfm] <;>
      exact dictLookup_insert_ne d _ _ _ hm

/-! Concrete inputs used by the progress theorems. -/

/-- Two followed items with distinct display titles. -/
def okFollowed : List FollowedManga := [⟨"a", some "Foo"⟩, ⟨"b", some "Bar"⟩]

/-- A chapter oracle where only item "a" succeeds. -/
def oneFailFetch : String → Except PyExn (List String) :=
  fun i => if i = "a" then .ok ["1", "2", "10"] else .error .httpError

/-- Two followed items sharing the display title "Foo". -/
def dupFollowed : List FollowedManga := [⟨"a", some "Foo"⟩, ⟨"b", some "Foo"⟩]

/-- A chapter oracle where only item "a" succeeds, with one chapter. -/
def dupFetch : String → Except PyExn (List String) :=
  fun i => if i = "a" then .ok ["1"] else .error .httpError

/-- A chapter oracle where item "a" succeeds with an empty chapter list. -/
def emptyChapterFetch : String → Except PyExn (List String) :=
  fun i => if i = "a" then .ok [] else .ok ["3"]

/-- C1 counterexample: two followed items that share the display title
"Foo", where item 0's chapter fetch succeeds and item 1's raises. The
progress dict is keyed by display title, so the second item overwrites the
first: the returned map has size 1, not N = 2, and item 0's title no longer
maps to its correctly computed latest chapter. -/
theorem progress_size_counterexample :
    dupFetch "a" = .ok ["1"] ∧
    dupFetch "b" = .error .httpError ∧
    dupFollowed.length = 2 ∧
    getReadingProgress dupFollowed dupFetch = [("Foo", "Error")] ∧
    (getReadingProgress dupFollowed dupFetch).length = 1 :=
  ⟨rfl, rfl, rfl, rfl, rfl⟩

/-- C1 amended: for every list of N followed items whose display titles are
pairwise distinct, if item k's chapter fetch raises, `get_reading_progress`
still returns a map of size N whose keys are the display titles in the
order returned by `get_followed_manga`, in which item k's title maps to the
sentinel "Error" and every item whose fetch succeeds has its title map to
its correctly computed latest chapter. -/
theorem progress_isolates_item_failure (followed : List FollowedManga)
    (fetch : String → Except PyExn (List String))
    (hnodup : (followed.map displayTitle).Nodup)
    (k : Nat) (hk : k < followed.length) (e : PyExn)
    (herr : fetch (followed.get ⟨k, hk⟩).id = .error e) :
    (getReadingProgress followed fetch).length = followed.length ∧
    keys (getReadingProgress followed fetch) = followed.map displayTitle ∧
    dictLookup (getReadingProgress followed fetch)
      (displayTitle (followed.get ⟨k, hk⟩)) = some "Error" ∧
    ∀ (j : Nat) (hj : j < followed.length) (chs : List String),
      fetch (followed.get ⟨j, hj⟩).id = .ok chs →
      dictLookup (getReadingProgress followed fetch)
        (displayTitle (followed.get ⟨j, hj⟩)) = some (pyMax chs "0") := by
  have hP := getReadingProgress_eq_map followed fetch hnodup
  have hlook : ∀ (j : Nat) (hj : j < followed.length),
      dictLookup (getReadingProgress followed fetch)
        (displayTitle (followed.get ⟨j, hj⟩)) =
        some (progressValue fetch (followed.get ⟨j, hj⟩)) := by
    intro j hj
    rw [hP]
    exact dictLookup_map_progress fetch followed hnodup j hj
  refine ⟨?_, ?_, ?_, ?_⟩
  · rw [hP]
    simp
  · rw [hP]
    simp [keys]
  · rw [hlook k hk, progressValue, herr]
  · intro j hj chs hok
    rw [hlook j hj, progressValue, hok]

/-- C1 amended witness: over `okFollowed` with item 1 ("Bar") failing, the
map has size 2, "Bar" maps to "Error" and "Foo" maps to "2". -/
theorem progress_isolates_item_failure_witness :
    (getReadingProgress okFollowed oneFailFetch).length = 2 ∧
    dictLookup (getReadingProgress okFollowed oneFailFetch) "Bar" = some "Error" ∧
    dictLookup (getReadingProgress okFollowed oneFailFetch) "Foo" = some "2" := by
  have h := progress_isolates_item_failure okFollowed oneFailFetch (by decide)
    1 (by decide) .httpError rfl
  exact ⟨h.1, h.2.2.1, h.2.2.2 0 (by decide) ["1", "2", "10"] rfl⟩

/-- C2: with followed items `[{id:"a", title:"Foo"}, {id:"b", title:"Bar"}]`,
`read_chapters("a") = ["1","2","10"]` and `read_chapters("b")` raising (any
exception), `get_reading_progress` returns exactly
`{"Foo": "2", "Bar": "Error"}`: the latest chapter is the generic
lexicographic string maximum, under which `"10" < "2"`. -/
theorem scenario_lexicographic_max (e : PyExn) :
    getReadingProgress [⟨"a", some "Foo"⟩, ⟨"b", some "Bar"⟩]
      (fun i => if i = "a" then .ok ["1", "2", "10"] else .error e) =
      [("Foo", "2"), ("Bar", "Error")] ∧
    strLt "10" "2" = true := by
  cases e <;> exact ⟨rfl, rfl⟩

/-- C9: for every followed item whose chapter fetch succeeds with an empty
chapter list, `get_reading_progress` records the sentinel "0" as that
item's latest chapter in the progress map (the hypothesis that no later
item shares its display title only identifies the map entry as this
item's). -/
theorem empty_chapter_list_records_zero (followed : List FollowedManga)
    (fetch : String → Except PyExn (List String))
    (pre post : List FollowedManga) (m : FollowedManga)
    (hsplit : followed = pre ++ m :: post)
    (hempty : fetch m.id = .ok [])
    (hlater : ∀ m' ∈ post, displayTitle m' ≠ displayTitle m) :
    dictLookup (getReadingProgress followed fetch) (displayTitle m) = some "0" := by
  subst hsplit
  rw [getReadingProgress, List.foldl_append, List.foldl_cons]
  rw [dictLookup_foldl_progress_of_ne fetch _ post _ hlater]
  rw [progressStep]
  simp only [hempty]
  exact dictLookup_insert_self _ _ _

/-- C9 witness: item "a" ("Foo") with an empty chapter list gets "0". -/
theorem empty_chapter_list_records_zero_witness :
    dictLookup (getReadingProgress okFollowed emptyChapterFetch) "Foo" = some "0" :=
  empty_chapter_list_records_zero okFollowed emptyChapterFetch []
    [⟨"b", some "Bar"⟩] ⟨"a", some "Foo"⟩ rfl rfl (by decide)

end MdSync
